import Mathlib

/-!
Verification development for the RFP response generator
(`generate_prompt.py` and `call_llm.py`).

The Python source is shallowly embedded: pure prompt-building and
response-extraction routines become Lean functions over explicit value
types; the provider transport (network calls) is external I/O and is
represented by oracle parameters of type `Except String HandlerResult`
(the outcome of one externally performed call: a raised transport error,
or the value the response handler produced); database reads/writes are
external and the workflow result models what would be written.  Python
scalar behaviour is made explicit: truthiness of strings/None, `str.lower`
(ASCII), `str.strip`, and `"%.2f"` formatting (correct rounding, ties to
even, of the exact decimal value of the finite float being formatted).
The builtin `float(...)` is, like the transport, a library primitive
outside this repository: a string-valued similarity score carries the
outcome of its `float(...)` call as part of the input value.
-/

/-! ## Python string primitives -/

/-- Model of Python `str.lower()` restricted to ASCII letters (the only
characters the provider names in the source use). -/
def lowerStr (s : String) : String := ⟨s.data.map Char.toLower⟩

/-- The whitespace set of Python `str.strip()` (ASCII part). -/
def isPyWS (c : Char) : Bool :=
  c == ' ' || c == '\t' || c == '\n' || c == '\x0d' || c == '\x0b' || c == '\x0c'

/-- Model of Python `str.strip()`: drop leading and trailing whitespace. -/
def pyStrip (s : String) : String :=
  ⟨((s.data.dropWhile isPyWS).reverse.dropWhile isPyWS).reverse⟩

/-- Model of Python `sep.join(xs)`. -/
def joinSep (sep : String) : List String → String
  | [] => ""
  | [x] => x
  | x :: y :: rest => x ++ sep ++ joinSep sep (y :: rest)

/-- `StrContains needle hay`: `needle` occurs as a contiguous substring of
`hay` (Python `needle in hay`). -/
def StrContains (needle hay : String) : Prop := needle.data <:+: hay.data

instance (n h : String) : Decidable (StrContains n h) :=
  List.decidableInfix n.data h.data

/-! ## Python numeric model

The similarity scores the source manipulates are Python ints and finite
floats (the spec's score domain is a real number in `[-1,1]` or `[0,1]`).
Every Python int and every finite binary double has an exact finite
decimal expansion, so score values are represented exactly as decimals;
non-finite floats (`inf`/`nan`) lie outside the data model and are not
represented. -/

/-- An exact decimal number `mant / 10 ^ exp`: the exact value of a
Python int or finite float appearing as a similarity score.  (Every
finite binary double `m * 2 ^ e` equals such a decimal, so this loses
nothing and rounds nothing.) -/
structure PyNum where
  mant : Int
  exp : Nat
deriving DecidableEq

/-- Round `a / b` (with `b > 0`) to the nearest integer, ties to even. -/
def roundHalfEven (a b : Int) : Int :=
  let q := Int.fdiv a b
  let r := a - q * b
  if 2 * r < b then q
  else if 2 * r > b then q + 1
  else if q % 2 = 0 then q else q + 1

/-- The two-digit decimal rendering of `m % 100` (as in `%02d`). -/
def twoDigitStr (m : Nat) : String :=
  ⟨[Nat.digitChar (m / 10 % 10), Nat.digitChar (m % 10)]⟩

/-- Model of Python `"%.2f"` formatting (`f"{score:.2f}"`): the sign, the
integer part, a dot, and exactly two fractional digits obtained by
rounding the magnitude to hundredths, ties to even.  CPython formats a
float by correctly rounding the EXACT value of the binary double with
ties to even (Gay dtoa, fixed mode), and `format2` is applied to exactly
that value, so this is the precise `%.2f` behaviour.  In particular a
decimal literal such as `2.675` never reaches the formatter as
`2675/1000`: `float("2.675")` is the nearest double, whose exact value
is below the tie and renders `2.67` here as in CPython; an exact tie
such as the double `0.125` renders `0.12` in both. -/
def format2 (d : PyNum) : String :=
  let n := (roundHalfEven (Int.ofNat d.mant.natAbs * 100) ((10 : Int) ^ d.exp)).toNat
  (if d.mant < 0 then "-" else "") ++ toString (n / 100) ++ "." ++ twoDigitStr (n % 100)

/-! ## `generate_prompt.py`: data model -/

/-- The role tag of a prompt message (`PromptMessage` roles per the data
model: system, user or assistant). -/
inductive Role where
  | system
  | user
  | assistant
deriving DecidableEq

/-- One prompt message: a role plus text content. -/
structure Message where
  role : Role
  content : String
deriving DecidableEq

/-- The similarity-score entry of a similar match, as Python sees it:
a number, a string, or a missing key.  The builtin `float` the source
applies to a string score (source line 75) is a Python library primitive
outside this repository, so — like the provider transport — its outcome
travels with the input: `parsed` is `none` when `float(s)` raises
`ValueError` (the `except` branch of lines 74-77), and `some d` with the
exact decimal value of the finite double `float(s)` returns otherwise.
Strings whose `float(...)` is non-finite (`"inf"`, `"nan"`, overflowing
exponents) are outside the spec's score domain and not represented. -/
inductive ScoreVal where
  | num (d : PyNum)
  | strVal (s : String) (parsed : Option PyNum)
  | missing
deriving DecidableEq

/-- One similar match dictionary as consumed by `create_rfp_prompt`:
`requirement` and `response` keys (absent keys default to `""` through
`dict.get`) and an optional `similarity_score`. -/
structure SimilarResp where
  requirement : Option String
  response : Option String
  similarity_score : ScoreVal
deriving DecidableEq

/-- The effective numeric score of a match: a numeric value is used as
is; a string value is converted with `float(...)`, and `0` is used when
that call raises; a missing key defaults to `0` (source lines 72-77). -/
def effScore (r : SimilarResp) : PyNum :=
  match r.similarity_score with
  | .num d => d
  | .strVal _ parsed => parsed.getD ⟨0, 0⟩
  | .missing => ⟨0, 0⟩

/-! ## `generate_prompt.py`: `create_rfp_prompt` -/

/-- System-message text before the category interpolation. -/
def sysPart1 : String :=
  "You are a senior RFP specialist with over 15 years of experience in wealth management software.\n" ++
  "Your expertise lies in crafting precise, impactful, and business-aligned responses to RFP requirements.\n" ++
  "\n**CONTEXT**:\n" ++
  "- Domain: Wealth Management Software.\n" ++
  "- Requirement Category: "

/-- System-message text between the category and the requirement. -/
def sysPart2 : String := ".\n- Current Requirement: "

/-- System-message text after the requirement interpolation. -/
def sysPart3 : String :=
  ".\n- Audience: Business professionals and wealth management decision-makers.\n" ++
  "\n**TASK**:\n" ++
  "Develop a high-quality response to the current RFP requirement. Use the provided previous responses as source material, prioritizing content from responses with higher similarity scores.\n" ++
  "\n**GUIDELINES**:\n" ++
  "1. **Response Style**:\n" ++
  "   - Professional, clear, and concise.\n" ++
  "   - Accessible to business professionals, avoiding excessive technical jargon.\n" ++
  "   - Focus on business benefits, practical applications, and value propositions.\n" ++
  "   - Ensure the response is complete and submission-ready.\n" ++
  "\n2. **Content Rules**:\n" ++
  "   - Incorporate content from the provided previous responses where relevant.\n" ++
  "   - Prioritize responses with higher similarity scores for relevance.\n" ++
  "   - Include technical details only when needed to demonstrate capability.\n" ++
  "   - Maintain an appropriate length (200-400 words) based on the complexity of the requirement.\n" ++
  "\n3. **Response Structure**:\n" ++
  "   - **Opening Statement**: Highlight the most relevant feature or capability related to the requirement.\n" ++
  "   - **Supporting Information**: Include specific examples or benefits that reinforce the feature.\n" ++
  "   - **Value Proposition**: End with a strong, tailored statement of value.\n" ++
  "\n4. **Critical Constraints**:\n" ++
  "   - Do NOT include any meta-text or commentary (e.g., \"Here\x27s the response…\", \x27Draft Response\x27).\n" ++
  "   - Do NOT include speculative or ambiguous language.\n" ++
  "   - Format your response as direct informational content, not as a letter with salutation and signature.\n"

/-- `category or 'Financial Technology'`: a missing or empty category
falls back to the fixed generic label. -/
def categoryOrDefault (category : Option String) : String :=
  match category with
  | some c => if c = "" then "Financial Technology" else c
  | none => "Financial Technology"

/-- The content of the system message of `create_rfp_prompt`. -/
def system_content (requirement : String) (category : Option String) : String :=
  sysPart1 ++ categoryOrDefault category ++ sysPart2 ++ requirement ++ sysPart3

/-- One formatted example block (source lines 79-81). -/
def exampleBlock (i : Nat) (r : SimilarResp) : String :=
  "**Example " ++ toString i ++ " (Similarity: " ++ format2 (effScore r) ++ ")**:\n" ++
  "Requirement: " ++ r.requirement.getD "" ++ "\n" ++
  "Response: " ++ r.response.getD "" ++ "\n\n"

/-- The example blocks for a list of matches, numbered from `i`. -/
def formatExamplesFrom (i : Nat) : List SimilarResp → String
  | [] => ""
  | r :: rs => exampleBlock i r ++ formatExamplesFrom (i + 1) rs

/-- `formatted_examples` of the source: at most the first three matches are
formatted, numbered from 1 (source line 71: `previous_responses[:3]`). -/
def formatted_examples (previous_responses : List SimilarResp) : String :=
  formatExamplesFrom 1 (previous_responses.take 3)

/-- The literal notice used when no examples are available. -/
def no_responses_notice : String :=
  "No previous responses available. Create an original response based on your expertise."

/-- Python `a or b` on strings: `b` when `a` is empty. -/
def pyOrStr (a b : String) : String := if a = "" then b else a

/-- User-message text before the examples. -/
def userPart1 : String :=
  "You have the following previous responses with similarity scores to evaluate:\n" ++
  "\n**Previous Responses and Scores**:\n"

/-- User-message text between the examples and the requirement. -/
def userPart2 : String :=
  "\n\n**Instructions**:\n" ++
  "1. Analyze the responses, prioritizing those with higher scores for relevance.\n" ++
  "2. Draft a response that meets all guidelines and rules outlined in the system message.\n" ++
  "3. Ensure the response is clear, concise, and tailored to the given requirement.\n" ++
  "\n**Current Requirement**: "

/-- The content of the user message of `create_rfp_prompt`. -/
def user_content (requirement : String) (previous_responses : List SimilarResp) : String :=
  userPart1 ++ pyOrStr (formatted_examples previous_responses) no_responses_notice ++
  userPart2 ++ requirement ++ "\n"

/-- The fixed validation-checklist message of `create_rfp_prompt`. -/
def validation_content : String :=
  "Review and validate the draft response based on these criteria:\n" ++
  "1. Content is appropriate and relevant to the requirement.\n" ++
  "2. The tone is professional and business-focused.\n" ++
  "3. No meta-text, assumptions, or speculative language is present.\n" ++
  "4. No salutation like \"Dear [Client\x27s Name]\" or signature block is included.\n" ++
  "5. The response delivers a clear, specific value proposition for the requirement.\n" ++
  "\nIf any criteria are unmet, revise the response accordingly."

/-- `create_rfp_prompt(requirement, category, previous_responses)`
(source lines 12-127): the three-message prompt.  A `None`
`previous_responses` behaves as the empty list. -/
def create_rfp_prompt (requirement : String) (category : Option String)
    (previous_responses : List SimilarResp) : List Message :=
  [⟨.system, system_content requirement category⟩,
   ⟨.user, user_content requirement previous_responses⟩,
   ⟨.user, validation_content⟩]

/-! ## `generate_prompt.py`: `convert_prompt_to_claude` -/

/-- The content of the first system message of the prompt, `""` when there
is none (source lines 140-146). -/
def extract_system_message : List Message → String
  | [] => ""
  | m :: rest => if m.role = .system then m.content else extract_system_message rest

/-- The conversion loop of `convert_prompt_to_claude` (source lines
148-171): `acc` is the `claude_messages` list built so far; the system
text is prepended to a user message only when the system text is nonempty
and no message has been emitted yet. -/
def convertLoop (system_message : String) (acc : List Message) :
    List Message → List Message
  | [] => acc
  | m :: rest =>
    match m.role with
    | .system => convertLoop system_message acc rest
    | .assistant => convertLoop system_message (acc ++ [m]) rest
    | .user =>
      if system_message ≠ "" ∧ acc = [] then
        convertLoop system_message
          (acc ++ [⟨.user, system_message ++ "\n\nHuman: " ++ m.content⟩]) rest
      else
        convertLoop system_message (acc ++ [m]) rest

/-- `convert_prompt_to_claude(prompt)` (source lines 129-173). -/
def convert_prompt_to_claude (prompt : List Message) : List Message :=
  convertLoop (extract_system_message prompt) [] prompt

/-- The non-system messages of a prompt, in order. -/
def filterNonSystem (prompt : List Message) : List Message :=
  prompt.filter (fun m => match m.role with | .system => false | _ => true)

/-! ## `call_llm.py`: `extract_text`

Provider responses are duck-typed Python objects.  The embedding gives
them an explicit shape covering every branch `extract_text` reads:
a plain string, or an object with optional `content`, `text`, `message`
and `choices` attributes plus its `str(...)` rendering. -/

/-- One element of a `content` list: an object with a `text` attribute
(a text block), a plain string, or a dict with an optional `text` key. -/
inductive ContentItem where
  | textBlock (text : String)
  | strElem (s : String)
  | dictElem (text : Option String)
deriving DecidableEq

/-- The `repr(...)` of a content-list element as used by `str(list)`.
Escaping inside the rendered text is not modelled; block and dict reprs
follow the CPython/SDK conventions for simple values. -/
def itemRepr : ContentItem → String
  | .textBlock t => "TextBlock(text=\x27" ++ t ++ "\x27, type=\x27text\x27)"
  | .strElem s => "\x27" ++ s ++ "\x27"
  | .dictElem (some t) => "\x7b\x27text\x27: \x27" ++ t ++ "\x27\x7d"
  | .dictElem none => "\x7b\x7d"

/-- Model of Python `str(content)` for a content list. -/
def strOfContentList (items : List ContentItem) : String :=
  "[" ++ joinSep ", " (items.map itemRepr) ++ "]"

/-- The value of a `content` attribute: a list of items, a plain string,
or some other value with its `str(...)` rendering. -/
inductive PyContent where
  | list (items : List ContentItem)
  | str (s : String)
  | other (reprStr : String)
deriving DecidableEq

/-- A `message` attribute: optionally a `content` attribute holding a
list of content items (the nested Claude shape). -/
structure MessageAttr where
  content : Option (List ContentItem)
deriving DecidableEq

/-- The `message` of a choices entry: optionally a string `content`. -/
structure ChoiceMessage where
  content : Option String
deriving DecidableEq

/-- One entry of a `choices` list. -/
structure ChoiceItem where
  message : Option ChoiceMessage
deriving DecidableEq

/-- A `text` attribute value.  Python attributes are dynamically typed, so
the value may be a non-string (rendered by `reprStr`); `extract_text`
reads it without a type guard. -/
inductive TextAttr where
  | str (s : String)
  | nonStr (reprStr : String)
deriving DecidableEq

/-- The attributes of a non-string response object. -/
structure RespFields where
  content : Option PyContent
  text : Option TextAttr
  message : Option MessageAttr
  choices : Option (List ChoiceItem)
  reprStr : String
deriving DecidableEq

/-- A provider response value: already a string, or an object. -/
inductive PyResponse where
  | str (s : String)
  | obj (o : RespFields)
deriving DecidableEq

/-- A Python exception escaping `extract_text`. -/
inductive PyErr where
  | typeError
deriving DecidableEq

/-- The space-join of the `text` of every text-bearing block (source line
48: `' '.join(block.text for block in response.content if hasattr(block, 'text'))`). -/
def joinBlocks (items : List ContentItem) : String :=
  joinSep " " (items.filterMap fun i =>
    match i with
    | .textBlock t => some t
    | _ => none)

/-- The `'text' in content[0]` check (source line 60): the text value of a
leading dict element that has a `text` key. -/
def headTextDict : List ContentItem → Option String
  | .dictElem (some t) :: _ => some t
  | _ => none

/-- The content-attribute branch of `extract_text` (source lines 37-90):
a list joins its text blocks when that join is nonempty, else uses a
leading `text`-keyed dict, else is stringified; a string content is
returned as is; any other content is stringified. -/
def contentExtract : PyContent → String
  | .str s => s
  | .other r => r
  | .list items =>
    let joined := joinBlocks items
    if joined ≠ "" then joined
    else
      match headTextDict items with
      | some t => t
      | none => strOfContentList items

/-- The `message.content[0].text` branch (source lines 101-112). -/
def messageExtract (m : MessageAttr) : Option String :=
  match m.content with
  | some (.textBlock t :: _) => some t
  | _ => none

/-- The `response.message` guard around `messageExtract` (source line
101: `hasattr(response, 'message') and hasattr(response.message, 'content')`). -/
def msgExtractOpt : Option MessageAttr → Option String
  | some m => messageExtract m
  | none => none

/-- The `choices[0].message.content` branch (source lines 115-132). -/
def choicesExtract : Option (List ChoiceItem) → Option String
  | some (c :: _) =>
    (match c.message with
     | some m => m.content
     | none => none)
  | _ => none

/-- `extract_text(response)` (source lines 15-140).  The only branch that
can raise is the bare `text`-attribute branch: its debug statement calls
`len(response.text)` outside any `try`, which is a `TypeError` when the
attribute value is not a string (source line 95). -/
def extract_text : PyResponse → Except PyErr String
  | .str s => .ok s
  | .obj o =>
    match o.content with
    | some c => .ok (contentExtract c)
    | none =>
      match o.text with
      | some (.str t) => .ok t
      | some (.nonStr _) => .error .typeError
      | none =>
        match msgExtractOpt o.message with
        | some r => .ok r
        | none =>
          match choicesExtract o.choices with
          | some r => .ok r
          | none => .ok o.reprStr

/-! ## `call_llm.py`: `get_model_config` -/

/-- The response-extraction strategy of a provider (the
`response_handler` entry of the configuration table). -/
inductive HandlerKind where
  | choicesStrip
  | extractText
deriving DecidableEq

/-- One provider configuration record (source lines 160-215), with the
connection parameters that are plain data; client classes and lambdas are
represented by their identifying data. -/
structure ModelConfig where
  display_name : String
  api_key_env : String
  base_url : Option String
  model : String
  requires_system_message_handling : Bool
  response_handler : HandlerKind
  normalized_name : String
deriving DecidableEq

/-- The `openai` configuration. -/
def openaiConfig : ModelConfig :=
  { display_name := "OpenAI"
    api_key_env := "OPENAI_API_KEY"
    base_url := none
    model := "gpt-4"
    requires_system_message_handling := false
    response_handler := .choicesStrip
    normalized_name := "openai" }

/-- The `deepseek` configuration. -/
def deepseekConfig : ModelConfig :=
  { display_name := "DeepSeek"
    api_key_env := "DEEPSEEK_API_KEY"
    base_url := some "https://api.deepseek.com/v1"
    model := "deepseek-chat"
    requires_system_message_handling := false
    response_handler := .choicesStrip
    normalized_name := "deepseek" }

/-- The `anthropic` configuration. -/
def anthropicConfig : ModelConfig :=
  { display_name := "Anthropic"
    api_key_env := "ANTHROPIC_API_KEY"
    base_url := none
    model := "claude-3-7-sonnet-20250219"
    requires_system_message_handling := true
    response_handler := .extractText
    normalized_name := "anthropic" }

/-- `get_model_config(model_name)` (source lines 142-224): lowercases the
name, maps the `claude` alias to `anthropic`, returns the configuration
with its normalized name, and raises `ValueError` for anything else. -/
def get_model_config (model_name : String) : Except String ModelConfig :=
  let normalized := lowerStr model_name
  let normalized := if normalized = "claude" then "anthropic" else normalized
  if normalized = "openai" then .ok openaiConfig
  else if normalized = "deepseek" then .ok deepseekConfig
  else if normalized = "anthropic" then .ok anthropicConfig
  else .error ("Unsupported model: " ++ model_name)

/-! ## `call_llm.py`: `prompt_gpt` -/

/-- The value the provider-specific response handler returned: a string,
or a non-string value with its `str(type(...))`-style rendering. -/
inductive HandlerResult where
  | str (s : String)
  | nonStr (reprStr : String)
deriving DecidableEq

/-- The diagnostic placeholder returned for an empty provider response
(source line 301). -/
def fallback_content (display_name : String) : String :=
  "The system encountered an issue with the " ++ display_name ++
  " response. Please try again or use another model."

/-- The content-validation tail of `prompt_gpt` (source lines 293-305):
a string result is stripped and, when empty, replaced by the diagnostic
placeholder; a non-string result raises `ValueError`. -/
def validate_content (display_name : String) : HandlerResult → Except String String
  | .str s =>
    let stripped := pyStrip s
    if stripped = "" then .ok (fallback_content display_name)
    else .ok stripped
  | .nonStr r => .error ("Invalid response format from " ++ display_name ++ ": " ++ r)

/-- `prompt_gpt(prompt, model_name)` (source lines 226-309), with the
external transport call abstracted into `call`: the configuration is
resolved first (an unsupported name raises before any call); a raised
transport or handler error propagates; otherwise the handler output goes
through content validation. -/
def prompt_gpt (model_name : String) (call : Except String HandlerResult) :
    Except String String :=
  match get_model_config model_name with
  | .error e => .error e
  | .ok config =>
    match call with
    | .error e => .error e
    | .ok content => validate_content config.display_name content

/-! ## `call_llm.py`: synthesis prompt -/

/-- Synthesis system text before the requirement interpolation. -/
def synthSysPart1 : String :=
  "You are a senior RFP specialist at a leading financial technology company with 15+ years of experience in winning complex RFPs in the wealth management domain.\n" ++
  "\nOBJECTIVE:\n" ++
  "Synthesize multiple response versions into one optimal response that directly addresses the requirement: "

/-- Synthesis system text after the requirement interpolation. -/
def synthSysPart2 : String :=
  "\n\nEVALUATION CRITERIA:\n" ++
  "1. **Relevance & Impact**:\n" ++
  "   - Direct alignment with the requirement.\n" ++
  "   - Clear and compelling value proposition.\n" ++
  "   - Focus on business benefits and measurable outcomes.\n" ++
  "   - Practicality of implementation.\n" ++
  "\n2. **Content Quality**:\n" ++
  "   - Factual accuracy (use ONLY information from provided responses).\n" ++
  "   - Specific examples, capabilities, and competitive differentiators.\n" ++
  "   - Avoid abstract claims; focus on concrete, verifiable details.\n" ++
  "\n3. **Writing Standards**:\n" ++
  "   - Professional, concise, and accessible language.\n" ++
  "   - Use active voice and avoid unnecessary technical jargon.\n" ++
  "   - Ensure clarity and logical flow.\n" ++
  "\nSYNTHESIS RULES:\n" ++
  "1. **Structure**:\n" ++
  "   - Begin with the strongest capability or feature.\n" ++
  "   - Support with specific examples, features, or metrics.\n" ++
  "   - Conclude with a clear statement of business impact or value proposition.\n" ++
  "\n2. **Content Integration**:\n" ++
  "   - Merge overlapping points to eliminate redundancy.\n" ++
  "   - Resolve contradictions by prioritizing the most relevant or impactful information.\n" ++
  "   - Maintain consistent terminology and preserve specific metrics or numbers.\n" ++
  "\n3. **Strict Prohibitions**:\n" ++
  "   - Do NOT include content beyond the provided source responses.\n" ++
  "   - Avoid marketing language, superlatives, or conditional statements.\n" ++
  "   - Do NOT add implementation details unless explicitly requested.\n" ++
  "\nOUTPUT REQUIREMENTS:\n" ++
  "1. **Format**:\n" ++
  "   - Single cohesive response, approximately 200 words.\n" ++
  "   - Ready for direct submission without additional editing.\n" ++
  "\n2. **Must Exclude**:\n" ++
  "   - Meta-commentary, introductory phrases, or explanatory notes.\n" ++
  "   - References to the synthesis process or source responses.\n" ++
  "\n3. **Must Include**:\n" ++
  "   - Concrete capabilities and specific benefits.\n" ++
  "   - A clear, compelling value proposition tailored to the requirement."

/-- Synthesis user text parts around the two interpolations. -/
def synthUserPart1 : String := "REQUIREMENT TO ADDRESS:\n"

/-- Synthesis user text between the requirement and the responses. -/
def synthUserPart2 : String := "\n\nSOURCE RESPONSES TO SYNTHESIZE:\n"

/-- Synthesis user text after the responses interpolation. -/
def synthUserPart3 : String :=
  "\n\nSYNTHESIS PROCESS:\n" ++
  "1. **Analysis Phase**:\n" ++
  "   - Review all responses to identify key themes, unique value points, and overlapping content.\n" ++
  "\n2. **Integration Phase**:\n" ++
  "   - Select the strongest elements from each response.\n" ++
  "   - Merge complementary points and remove redundancies.\n" ++
  "   - Ensure the response has a logical flow and aligns with the requirement.\n" ++
  "\n3. **Refinement Phase**:\n" ++
  "   - Verify alignment with the requirement.\n" ++
  "   - Check for completeness, clarity, and adherence to the 200-word limit.\n" ++
  "\n4. **Validation Phase**:\n" ++
  "   - Cross-check the response against the source material to ensure no new information is added.\n" ++
  "   - Confirm the tone is professional and the focus is on business benefits.\n" ++
  "\nNow, provide the synthesized response that best addresses the requirement."

/-- The fixed synthesis validation message. -/
def synthValidationContent : String :=
  "FINAL CHECKS:\n" ++
  "1. Does the response directly and fully address the requirement?\n" ++
  "2. Is all information sourced exclusively from the provided responses?\n" ++
  "3. Is the response approximately 200 words in length?\n" ++
  "4. Is the language clear, professional, and free of unnecessary jargon?\n" ++
  "5. Does the response include concrete capabilities, specific benefits, and a clear value proposition?\n" ++
  "6. Is the response ready for direct submission without additional editing?\n" ++
  "\nIf any check fails, revise the response accordingly."

/-- `create_synthesized_response_prompt(requirement, responses)` (source
lines 311-417); `responses` is the already-joined source-response text. -/
def create_synthesized_response_prompt (requirement responses : String) :
    List Message :=
  [⟨.system, synthSysPart1 ++ requirement ++ synthSysPart2⟩,
   ⟨.user, synthUserPart1 ++ requirement ++ synthUserPart2 ++ responses ++ synthUserPart3⟩,
   ⟨.user, synthValidationContent⟩]

/-! ## `call_llm.py`: the MOA branch of `get_llm_responses` -/

/-- The per-branch `try/except` of the fan-out loop (source lines
597-603): a raised exception is recorded as `None`. -/
def caught : Except String String → Option String
  | .ok s => some s
  | .error _ => none

/-- The recorded result of one fan-out provider call. -/
def record_response (model_name : String) (call : Except String HandlerResult) :
    Option String :=
  caught (prompt_gpt model_name call)

/-- Python truthiness of an optional string: `None` and `""` are falsy. -/
def truthyOpt : Option String → Bool
  | some s => s != ""
  | none => false

/-- Python `a or b` on optional strings: `a` when truthy, else `b`. -/
def pyOrOpt (a b : Option String) : Option String :=
  if truthyOpt a then a else b

/-- The labeled source responses collected for synthesis (source lines
612-618): each truthy individual response under its fixed heading. -/
def labeled_responses (o d c : Option String) : List String :=
  (if truthyOpt o then ["OpenAI Response:\n" ++ o.getD ""] else []) ++
  (if truthyOpt d then ["Deepseek Response:\n" ++ d.getD ""] else []) ++
  (if truthyOpt c then ["Claude Response:\n" ++ c.getD ""] else [])

/-- The first truthy value in priority order, as the claim states it:
the first available individual result. -/
def firstAvailable : Option String → Option String → Option String
  | some s, _ => some s
  | none, b => b

/-- The three fan-out transport outcomes of MOA mode (external calls). -/
structure FanOutCalls where
  openai : Except String HandlerResult
  deepseek : Except String HandlerResult
  anthropic : Except String HandlerResult

/-- What the MOA branch persists and returns: the three individual
responses (nullable), the final response, the joined labeled source text
and the synthesis prompt built from it. -/
structure MoaRecord where
  openai_response : Option String
  deepseek_response : Option String
  anthropic_response : Option String
  final_response : Option String
  synthesis_source : String
  synthesis_prompt : List Message
deriving DecidableEq

/-- The MOA branch of `get_llm_responses` (source lines 586-658), with the
external provider calls abstracted as oracles: each fan-out call is
isolated by `try/except` and recorded (`None` on failure); if no recorded
response is truthy the branch raises `ValueError` and nothing is
persisted (`.error`); otherwise the labeled truthy responses are joined
into the synthesis prompt, the synthesis call (provider `openai`) yields
the final response, falling back on `openai or deepseek or claude` when
it raises, and the row is persisted (`.ok`). -/
def get_llm_responses_moa (requirement : String) (fanout : FanOutCalls)
    (synthesis_call : Except String HandlerResult) : Except String MoaRecord :=
  let openai_response := record_response "openai" fanout.openai
  let deepseek_response := record_response "deepseek" fanout.deepseek
  let claude_response := record_response "anthropic" fanout.anthropic
  if truthyOpt openai_response || truthyOpt deepseek_response || truthyOpt claude_response then
    let src := joinSep "\n\n" (labeled_responses openai_response deepseek_response claude_response)
    let final_response : Option String :=
      match prompt_gpt "openai" synthesis_call with
      | .ok s => some s
      | .error _ => pyOrOpt openai_response (pyOrOpt deepseek_response claude_response)
    .ok
      { openai_response := openai_response
        deepseek_response := deepseek_response
        anthropic_response := claude_response
        final_response := final_response
        synthesis_source := src
        synthesis_prompt := create_synthesized_response_prompt requirement src }
  else
    .error "Failed to generate responses from any model"

/-! ## Shared lemmas -/

/-- A string is an infix of itself. -/
theorem strContains_refl (n : String) : StrContains n n :=
  ⟨[], [], by simp⟩

/-- Containment is preserved by appending on the right. -/
theorem strContains_append_right {n h : String} (t : String)
    (hc : StrContains n h) : StrContains n (h ++ t) := by
  obtain ⟨a, b, e⟩ := hc
  exact ⟨a, b ++ t.data, by rw [String.data_append, ← e]; simp⟩

/-- Containment is preserved by appending on the left. -/
theorem strContains_append_left {n h : String} (s : String)
    (hc : StrContains n h) : StrContains n (s ++ h) := by
  obtain ⟨a, b, e⟩ := hc
  exact ⟨s.data ++ a, b, by rw [String.data_append, ← e]; simp⟩

/-- An append whose left part is nonempty is a nonempty string. -/
theorem append_ne_empty_left {s : String} (t : String) (hs : s.data ≠ []) :
    s ++ t ≠ "" := by
  intro he
  have h2 := congrArg String.data he
  rw [String.data_append] at h2
  simp only [List.append_eq_nil] at h2
  exact hs h2.1

/-- The diagnostic placeholder is never the empty string. -/
theorem fallback_content_ne_empty (dn : String) : fallback_content dn ≠ "" := by
  unfold fallback_content
  apply append_ne_empty_left
  rw [String.data_append]
  intro h
  exact absurd (List.append_eq_nil.mp h).1 (by decide)

/-- Content validation never returns the empty string. -/
theorem validate_content_ok_ne_empty {dn r : String} {h : HandlerResult}
    (hv : validate_content dn h = .ok r) : r ≠ "" := by
  cases h with
  | nonStr s => exact absurd hv (by simp [validate_content])
  | str s =>
    by_cases hs : pyStrip s = ""
    · simp only [validate_content, hs, if_true] at hv
      injection hv with hv
      subst hv
      exact fallback_content_ne_empty dn
    · simp only [validate_content, hs, if_false] at hv
      injection hv with hv
      subst hv
      exact hs

/-- `prompt_gpt` never succeeds with the empty string. -/
theorem prompt_gpt_ok_ne_empty {name r : String} {call : Except String HandlerResult}
    (hv : prompt_gpt name call = .ok r) : r ≠ "" := by
  unfold prompt_gpt at hv
  cases hcfg : get_model_config name with
  | error e => rw [hcfg] at hv; exact absurd hv (by simp)
  | ok cfg =>
    rw [hcfg] at hv
    cases call with
    | error e => exact absurd hv (by simp)
    | ok content => exact validate_content_ok_ne_empty hv

/-- A recorded fan-out result is never `some ""`. -/
theorem record_response_ne_some_empty (name : String)
    (call : Except String HandlerResult) : record_response name call ≠ some "" := by
  unfold record_response caught
  cases hp : prompt_gpt name call with
  | error e => simp
  | ok s =>
    simp only [ne_eq, Option.some.injEq]
    intro he
    exact prompt_gpt_ok_ne_empty hp he

/-- Truthiness coincides with presence for values that are never
`some ""`. -/
theorem truthyOpt_eq_isSome {x : Option String} (hx : x ≠ some "") :
    truthyOpt x = x.isSome := by
  cases x with
  | none => rfl
  | some s =>
    simp only [truthyOpt, Option.isSome]
    have : s ≠ "" := fun he => hx (by rw [he])
    simp [this]

/-- Python `or` agrees with `firstAvailable` when the left value is never
`some ""`. -/
theorem pyOrOpt_eq_firstAvailable {a : Option String} (b : Option String)
    (ha : a ≠ some "") : pyOrOpt a b = firstAvailable a b := by
  cases a with
  | none => rfl
  | some s =>
    have hs : s ≠ "" := fun he => ha (by rw [he])
    simp [pyOrOpt, truthyOpt, firstAvailable, hs]

/-! ## C8: provider name resolution -/

/-- C8.  `get_model_config` resolves names case-insensitively: every
casing of a supported logical name yields that provider's fixed
configuration; every casing of the alias `claude` yields the same
configuration as `anthropic`, whose normalized name is `anthropic`; every
other name is rejected with `Unsupported model`. -/
theorem get_model_config_resolution (name : String) :
    (lowerStr name = "openai" → get_model_config name = .ok openaiConfig)
    ∧ (lowerStr name = "deepseek" → get_model_config name = .ok deepseekConfig)
    ∧ (lowerStr name = "anthropic" → get_model_config name = .ok anthropicConfig)
    ∧ (lowerStr name = "claude" →
        get_model_config name = get_model_config "anthropic"
        ∧ ∀ cfg, get_model_config name = .ok cfg → cfg.normalized_name = "anthropic")
    ∧ (lowerStr name ≠ "openai" → lowerStr name ≠ "deepseek" →
       lowerStr name ≠ "anthropic" → lowerStr name ≠ "claude" →
       get_model_config name = .error ("Unsupported model: " ++ name)) := by
  refine ⟨?_, ?_, ?_, ?_, ?_⟩
  · intro h; simp only [get_model_config, h]; rfl
  · intro h; simp only [get_model_config, h]; rfl
  · intro h; simp only [get_model_config, h]; rfl
  · intro h
    constructor
    · simp only [get_model_config, h]; rfl
    · intro cfg hcfg
      simp only [get_model_config, h] at hcfg
      have : Except.ok (ε := String) anthropicConfig = .ok cfg := hcfg
      injection this with this
      rw [← this]
      rfl
  · intro h1 h2 h3 h4
    simp only [get_model_config]
    rw [if_neg h4, if_neg h1, if_neg h2, if_neg h3]

/-- C8 witness: concrete casings. -/
theorem get_model_config_resolution_witness :
    lowerStr "OpenAI" = "openai"
    ∧ get_model_config "OpenAI" = .ok openaiConfig
    ∧ lowerStr "CLaude" = "claude"
    ∧ get_model_config "CLaude" = get_model_config "anthropic"
    ∧ lowerStr "mistral" ≠ "openai"
    ∧ get_model_config "mistral" = .error ("Unsupported model: " ++ "mistral") :=
  ⟨by decide,
   (get_model_config_resolution "OpenAI").1 (by decide),
   by decide,
   ((get_model_config_resolution "CLaude").2.2.2.1 (by decide)).1,
   by decide,
   (get_model_config_resolution "mistral").2.2.2.2 (by decide) (by decide) (by decide) (by decide)⟩

/-! ## C3: empty provider responses degrade to a placeholder -/

/-- C3.  When the extracted response is a string whose stripped value is
empty, `prompt_gpt` does not raise: it returns the diagnostic placeholder,
which names the provider display name and instructs the caller to retry
or switch models; and a non-raising `prompt_gpt` call never returns the
empty string. -/
theorem prompt_gpt_empty_placeholder (name : String) (cfg : ModelConfig)
    (hcfg : get_model_config name = .ok cfg) :
    (∀ s, pyStrip s = "" →
       prompt_gpt name (.ok (.str s)) = .ok (fallback_content cfg.display_name)
       ∧ StrContains cfg.display_name (fallback_content cfg.display_name)
       ∧ StrContains "Please try again or use another model."
           (fallback_content cfg.display_name)
       ∧ fallback_content cfg.display_name ≠ "")
    ∧ (∀ call r, prompt_gpt name call = .ok r → r ≠ "") := by
  constructor
  · intro s hs
    refine ⟨?_, ?_, ?_, fallback_content_ne_empty _⟩
    · simp only [prompt_gpt, hcfg, validate_content, hs, if_true]
    · exact strContains_append_right _
        (strContains_append_left _ (strContains_refl _))
    · unfold fallback_content
      exact strContains_append_left _ (by decide)
  · intro call r h
    exact prompt_gpt_ok_ne_empty h

/-- C3 witness: a whitespace-only OpenAI response becomes the placeholder. -/
theorem prompt_gpt_empty_placeholder_witness :
    pyStrip " \n " = ""
    ∧ prompt_gpt "openai" (.ok (.str " \n ")) = .ok (fallback_content "OpenAI")
    ∧ StrContains "OpenAI" (fallback_content "OpenAI") :=
  ⟨by decide,
   (((prompt_gpt_empty_placeholder "openai" openaiConfig rfl).1 " \n ") (by decide)).1,
   (((prompt_gpt_empty_placeholder "openai" openaiConfig rfl).1 " \n ") (by decide)).2.1⟩

/-! ## `convert_prompt_to_claude`: characterization lemmas -/

/-- Once a message has been emitted (or there is no system text), the
conversion loop appends the remaining non-system messages unchanged. -/
theorem convertLoop_stable (sys : String) :
    ∀ (l acc : List Message), acc ≠ [] ∨ sys = "" →
      convertLoop sys acc l = acc ++ filterNonSystem l := by
  intro l
  induction l with
  | nil => intro acc h; simp [convertLoop, filterNonSystem]
  | cons m rest ih =>
    intro acc h
    cases hm : m.role with
    | system =>
      have e1 : convertLoop sys acc (m :: rest) = convertLoop sys acc rest := by
        simp [convertLoop, hm]
      have e2 : filterNonSystem (m :: rest) = filterNonSystem rest := by
        simp [filterNonSystem, List.filter, hm]
      rw [e1, e2, ih acc h]
    | assistant =>
      have e1 : convertLoop sys acc (m :: rest) = convertLoop sys (acc ++ [m]) rest := by
        simp [convertLoop, hm]
      have e2 : filterNonSystem (m :: rest) = m :: filterNonSystem rest := by
        simp [filterNonSystem, List.filter, hm]
      rw [e1, e2, ih (acc ++ [m]) (Or.inl (by simp))]
      simp
    | user =>
      have hcond : ¬(sys ≠ "" ∧ acc = []) := by
        rcases h with h | h
        · intro hc; exact h hc.2
        · intro hc; exact hc.1 h
      have e1 : convertLoop sys acc (m :: rest) = convertLoop sys (acc ++ [m]) rest := by
        simp only [convertLoop, hm]
        rw [if_neg hcond]
      have e2 : filterNonSystem (m :: rest) = m :: filterNonSystem rest := by
        simp [filterNonSystem, List.filter, hm]
      rw [e1, e2, ih (acc ++ [m]) (Or.inl (by simp))]
      simp

/-- With empty system text the conversion is exactly the non-system
filter. -/
theorem convertLoop_no_sys (l : List Message) :
    convertLoop "" [] l = filterNonSystem l :=
  convertLoop_stable "" l [] (Or.inr rfl)

/-- With nonempty system text, the conversion is determined by the first
non-system message: a leading user message is prefixed with the system
text, anything else is passed through; the tail is unchanged. -/
theorem convertLoop_with_sys (sys : String) (hsys : sys ≠ "") :
    ∀ l : List Message,
      (filterNonSystem l = [] → convertLoop sys [] l = [])
      ∧ (∀ m rest, filterNonSystem l = m :: rest →
          convertLoop sys [] l =
            (if m.role = .user then
               Message.mk .user (sys ++ "\n\nHuman: " ++ m.content)
             else m) :: rest) := by
  intro l
  induction l with
  | nil => exact ⟨fun _ => rfl, fun m rest h => by simp [filterNonSystem] at h⟩
  | cons hd tl ih =>
    cases hm : hd.role with
    | system =>
      have e2 : filterNonSystem (hd :: tl) = filterNonSystem tl := by
        simp [filterNonSystem, List.filter, hm]
      have e1 : convertLoop sys [] (hd :: tl) = convertLoop sys [] tl := by
        simp [convertLoop, hm]
      rw [e1, e2]
      exact ih
    | assistant =>
      have e2 : filterNonSystem (hd :: tl) = hd :: filterNonSystem tl := by
        simp [filterNonSystem, List.filter, hm]
      have e1 : convertLoop sys [] (hd :: tl) = hd :: filterNonSystem tl := by
        have : convertLoop sys [] (hd :: tl) = convertLoop sys [hd] tl := by
          simp [convertLoop, hm]
        rw [this, convertLoop_stable sys tl [hd] (Or.inl (by simp))]
        simp
      constructor
      · intro h; rw [e2] at h; exact absurd h (by simp)
      · intro m rest h
        rw [e2] at h
        injection h with h1 h2
        subst h1; subst h2
        rw [e1, if_neg (by rw [hm]; intro hc; exact Role.noConfusion hc)]
    | user =>
      have e2 : filterNonSystem (hd :: tl) = hd :: filterNonSystem tl := by
        simp [filterNonSystem, List.filter, hm]
      have e1 : convertLoop sys [] (hd :: tl) =
          Message.mk .user (sys ++ "\n\nHuman: " ++ hd.content) :: filterNonSystem tl := by
        have : convertLoop sys [] (hd :: tl) =
            convertLoop sys [Message.mk .user (sys ++ "\n\nHuman: " ++ hd.content)] tl := by
          simp only [convertLoop, hm]
          rw [if_pos]
          · simp
          · exact ⟨hsys, trivial⟩
        rw [this,
          convertLoop_stable sys tl [Message.mk .user (sys ++ "\n\nHuman: " ++ hd.content)]
            (Or.inl (by simp))]
        simp
      constructor
      · intro h; rw [e2] at h; exact absurd h (by simp)
      · intro m rest h
        rw [e2] at h
        injection h with h1 h2
        subst h1; subst h2
        rw [e1, if_pos hm]

/-- The non-system filter never keeps a system message. -/
theorem filterNonSystem_no_system {p : List Message} :
    ∀ m ∈ filterNonSystem p, m.role ≠ .system := by
  intro m hm
  have := List.of_mem_filter hm
  intro hr
  rw [hr] at this
  simp at this

/-- A prompt without system messages extracts empty system text. -/
theorem extract_system_of_no_system {p : List Message}
    (h : ∀ m ∈ p, m.role ≠ .system) : extract_system_message p = "" := by
  induction p with
  | nil => rfl
  | cons m rest ih =>
    have hm : m.role ≠ .system := h m (by simp)
    simp only [extract_system_message, if_neg hm]
    exact ih (fun x hx => h x (by simp [hx]))

/-- A prompt without system messages is unchanged by the filter. -/
theorem filterNonSystem_of_no_system {p : List Message}
    (h : ∀ m ∈ p, m.role ≠ .system) : filterNonSystem p = p := by
  unfold filterNonSystem
  apply List.filter_eq_self.mpr
  intro m hm
  have := h m hm
  cases hr : m.role with
  | system => exact absurd hr this
  | user => simp
  | assistant => simp

/-- A prompt without system messages passes through the conversion
unchanged. -/
theorem convert_of_no_system {p : List Message}
    (h : ∀ m ∈ p, m.role ≠ .system) : convert_prompt_to_claude p = p := by
  unfold convert_prompt_to_claude
  rw [extract_system_of_no_system h, convertLoop_no_sys, filterNonSystem_of_no_system h]

/-! ## C5 (amended): format conversion -/

/-- C5 (amended).  `convert_prompt_to_claude` extracts the first system
message text, emits no system-role entries, and drops all system entries.
When the extracted system text is nonempty and the FIRST remaining
(non-system) message is a user message, that message's content becomes
`{system}\n\nHuman: {content}` and every later message is unchanged; but
when the first remaining message is an assistant message, no prepending
happens anywhere (the system text is dropped) — the source guards the
prepend with `not claude_messages`, not with "first user message".  With
no system message every user and assistant message passes through
unmodified. -/
theorem convert_prompt_to_claude_spec (p : List Message) :
    (∀ m ∈ convert_prompt_to_claude p, m.role ≠ .system)
    ∧ (extract_system_message p = "" →
        convert_prompt_to_claude p = filterNonSystem p)
    ∧ ((∀ m ∈ p, m.role ≠ .system) → convert_prompt_to_claude p = p)
    ∧ (∀ u rest, extract_system_message p ≠ "" →
        filterNonSystem p = Message.mk .user u :: rest →
        convert_prompt_to_claude p =
          Message.mk .user (extract_system_message p ++ "\n\nHuman: " ++ u) :: rest)
    ∧ (∀ m rest, extract_system_message p ≠ "" →
        filterNonSystem p = m :: rest → m.role = .assistant →
        convert_prompt_to_claude p = m :: rest) := by
  refine ⟨?_, ?_, convert_of_no_system, ?_, ?_⟩
  · intro m hm
    by_cases hsys : extract_system_message p = ""
    · unfold convert_prompt_to_claude at hm
      rw [hsys, convertLoop_no_sys] at hm
      exact filterNonSystem_no_system m hm
    · cases hf : filterNonSystem p with
      | nil =>
        unfold convert_prompt_to_claude at hm
        rw [(convertLoop_with_sys _ hsys p).1 hf] at hm
        simp at hm
      | cons hd tl =>
        unfold convert_prompt_to_claude at hm
        rw [(convertLoop_with_sys _ hsys p).2 hd tl hf] at hm
        rcases List.mem_cons.mp hm with hm | hm
        · subst hm
          by_cases hu : hd.role = .user
          · rw [if_pos hu]; intro hc; exact Role.noConfusion hc
          · rw [if_neg hu]
            have : hd ∈ filterNonSystem p := by rw [hf]; simp
            exact filterNonSystem_no_system hd this
        · have : m ∈ filterNonSystem p := by rw [hf]; simp [hm]
          exact filterNonSystem_no_system m this
  · intro hsys
    unfold convert_prompt_to_claude
    rw [hsys, convertLoop_no_sys]
  · intro u rest hsys hf
    unfold convert_prompt_to_claude
    rw [(convertLoop_with_sys _ hsys p).2 _ _ hf]
    rw [if_pos rfl]
  · intro m rest hsys hf hrole
    unfold convert_prompt_to_claude
    rw [(convertLoop_with_sys _ hsys p).2 _ _ hf]
    rw [if_neg (by rw [hrole]; intro hc; exact Role.noConfusion hc)]

/-- C5 counterexample: with an assistant message between the system and
the first user message, the source does NOT prepend the system text to
the first remaining user message — the user message keeps content `"U"`,
refuting the claim as stated. -/
theorem convert_prompt_to_claude_assistant_first :
    convert_prompt_to_claude
        [Message.mk .system "S", Message.mk .assistant "A", Message.mk .user "U"]
      = [Message.mk .assistant "A", Message.mk .user "U"]
    ∧ [Message.mk .assistant "A", Message.mk .user "U"]
      ≠ [Message.mk .assistant "A", Message.mk .user "S\n\nHuman: U"] :=
  ⟨rfl, by decide⟩

/-- C5 witness: with the system message directly before the first user
message the prepend does happen. -/
theorem convert_prompt_to_claude_spec_witness :
    convert_prompt_to_claude [Message.mk .system "S", Message.mk .user "U"]
      = [Message.mk .user ("S" ++ "\n\nHuman: " ++ "U")] :=
  (convert_prompt_to_claude_spec
      [Message.mk .system "S", Message.mk .user "U"]).2.2.2.1 "U" []
    (by decide) rfl

/-! ## C9: idempotence without a system message -/

/-- C9.  Conversion is idempotent on prompts without a system message. -/
theorem convert_prompt_to_claude_idempotent (p : List Message)
    (h : ∀ m ∈ p, m.role ≠ .system) :
    convert_prompt_to_claude (convert_prompt_to_claude p) =
      convert_prompt_to_claude p := by
  have e := convert_of_no_system h
  rw [e, e]

/-- C9 witness. -/
theorem convert_prompt_to_claude_idempotent_witness :
    convert_prompt_to_claude
        (convert_prompt_to_claude [Message.mk .user "U", Message.mk .assistant "A"])
      = convert_prompt_to_claude [Message.mk .user "U", Message.mk .assistant "A"] :=
  convert_prompt_to_claude_idempotent _ (by decide)

/-! ## C6 (amended) and C7: response extraction -/

/-- C6 (amended).  `extract_text` follows the priority order: (a) a
string input is returned unchanged; (b) a content list whose text-block
join is nonempty yields that join; a content list with an empty join and
a leading `text`-keyed dict yields that dict text; (c-amended) a content
list with an empty join (in particular, a list of plain strings, which
bear no `text` attribute) and no leading `text`-keyed dict yields the
Python stringification of the list — NOT the joined strings; (d) a string
`content` is returned as is, any other `content` is stringified; (e) a
string `text` attribute yields that text; (f) a nested
`message.content[0].text` yields that text; (g) `choices[0].message.content`
is returned; (h) anything else is stringified. -/
theorem extract_text_shapes (s : String) (o : RespFields) :
    extract_text (.str s) = .ok s
    ∧ (∀ items, o.content = some (.list items) → joinBlocks items ≠ "" →
        extract_text (.obj o) = .ok (joinBlocks items))
    ∧ (∀ items t, o.content = some (.list items) → joinBlocks items = "" →
        headTextDict items = some t → extract_text (.obj o) = .ok t)
    ∧ (∀ items, o.content = some (.list items) → joinBlocks items = "" →
        headTextDict items = none →
        extract_text (.obj o) = .ok (strOfContentList items))
    ∧ (∀ c, o.content = some (.str c) → extract_text (.obj o) = .ok c)
    ∧ (∀ r, o.content = some (.other r) → extract_text (.obj o) = .ok r)
    ∧ (∀ t, o.content = none → o.text = some (.str t) →
        extract_text (.obj o) = .ok t)
    ∧ (∀ t, o.content = none → o.text = none → msgExtractOpt o.message = some t →
        extract_text (.obj o) = .ok t)
    ∧ (∀ t, o.content = none → o.text = none → msgExtractOpt o.message = none →
        choicesExtract o.choices = some t → extract_text (.obj o) = .ok t)
    ∧ (o.content = none → o.text = none → msgExtractOpt o.message = none →
        choicesExtract o.choices = none → extract_text (.obj o) = .ok o.reprStr) := by
  refine ⟨rfl, ?_, ?_, ?_, ?_, ?_, ?_, ?_, ?_, ?_⟩
  · intro items hc hj
    simp only [extract_text, hc, contentExtract, if_pos hj]
  · intro items t hc hj hd
    simp only [extract_text, hc, contentExtract, hj, hd]
    simp
  · intro items hc hj hd
    simp only [extract_text, hc, contentExtract, hj, hd]
    simp
  · intro c hc
    simp only [extract_text, hc, contentExtract]
  · intro r hc
    simp only [extract_text, hc, contentExtract]
  · intro t hc ht
    simp only [extract_text, hc, ht]
  · intro t hc ht hmsg
    simp only [extract_text, hc, ht, hmsg]
  · intro t hc ht hmsg hch
    simp only [extract_text, hc, ht, hmsg, hch]
  · intro hc ht hmsg hch
    simp only [extract_text, hc, ht, hmsg, hch]

/-- C6 counterexample: a content list of plain strings is NOT joined —
plain strings bear no `text` attribute, so the block join is empty and
the source returns `str(response.content)`, the Python repr of the list,
refuting clause (c) of the claim as stated. -/
theorem extract_text_plain_string_list :
    extract_text (.obj
        { content := some (.list [.strElem "a", .strElem "b"])
          text := none
          message := none
          choices := none
          reprStr := "resp" })
      = .ok "[\x27a\x27, \x27b\x27]"
    ∧ ("[\x27a\x27, \x27b\x27]" : String) ≠ "a b"
    ∧ ("[\x27a\x27, \x27b\x27]" : String) ≠ "ab" :=
  ⟨rfl, by decide, by decide⟩

/-- C6 witness: the text-block join branch on a concrete response. -/
theorem extract_text_shapes_witness :
    joinBlocks [ContentItem.textBlock "Hello", ContentItem.textBlock "world"] ≠ ""
    ∧ extract_text (.obj
        { content := some (.list [.textBlock "Hello", .textBlock "world"])
          text := none
          message := none
          choices := none
          reprStr := "resp" })
      = .ok (joinBlocks [ContentItem.textBlock "Hello", ContentItem.textBlock "world"]) :=
  ⟨by decide,
   (extract_text_shapes "" _).2.1 [.textBlock "Hello", .textBlock "world"] rfl (by decide)⟩

/-- C7 (code bug).  The claim says `extract_text` never raises, and the
function is written defensively to that end; but for a response whose
`text` attribute is not a string (and with no `content` attribute), the
unguarded debug statement `len(response.text)` at source line 95 raises
`TypeError` before the `return`.  The embedding evaluates the code at
that failing input. -/
theorem extract_text_nonstring_text_raises :
    extract_text (.obj
        { content := none
          text := some (.nonStr "0")
          message := none
          choices := none
          reprStr := "resp" })
      = .error .typeError := rfl

/-! ## Prompt-builder lemmas -/

/-- Digit characters for values below ten are digits. -/
theorem digitChar_isDigit {k : Nat} (hk : k < 10) :
    (Nat.digitChar k).isDigit = true := by
  interval_cases k <;> decide

/-- `format2` always renders a dot followed by exactly two digit
characters. -/
theorem format2_two_decimals (d : PyNum) :
    ∃ pre c1 c2, format2 d = pre ++ "." ++ (⟨[c1, c2]⟩ : String)
      ∧ c1.isDigit = true ∧ c2.isDigit = true := by
  refine ⟨(if d.mant < 0 then "-" else "") ++
      toString ((roundHalfEven (Int.ofNat d.mant.natAbs * 100) ((10 : Int) ^ d.exp)).toNat / 100),
    _, _, rfl, ?_, ?_⟩
  · exact digitChar_isDigit (Nat.mod_lt _ (by norm_num))
  · exact digitChar_isDigit (Nat.mod_lt _ (by norm_num))

/-- An example block is a nonempty string. -/
theorem exampleBlock_data_ne_nil (i : Nat) (r : SimilarResp) :
    (exampleBlock i r).data ≠ [] := by
  unfold exampleBlock
  intro h
  simp [String.data_append] at h

/-- The formatted examples of a nonempty match list are nonempty. -/
theorem formatted_examples_cons_ne_empty (r : SimilarResp) (rest : List SimilarResp) :
    formatted_examples (r :: rest) ≠ "" := by
  unfold formatted_examples
  simp only [List.take_succ_cons, formatExamplesFrom]
  intro h
  have h2 := congrArg String.data h
  rw [String.data_append] at h2
  simp only [List.append_eq_nil] at h2
  exact exampleBlock_data_ne_nil 1 r h2.1

/-- C4.  `create_rfp_prompt` returns exactly the three ordered messages
system / user / user; the system message embeds the literal requirement
and the category (with the fixed label `Financial Technology` when the
category is absent or empty); the third message is the fixed validation
checklist; with zero matches the user message contains the literal
no-prior-examples notice; with three or more matches the user message is
built from exactly the first three example blocks, each score rendered by
`format2`, which always yields a dot followed by exactly two digits. -/
theorem create_rfp_prompt_shape (requirement : String) (category : Option String)
    (previous_responses : List SimilarResp) :
    create_rfp_prompt requirement category previous_responses =
      [Message.mk .system (system_content requirement category),
       Message.mk .user (user_content requirement previous_responses),
       Message.mk .user validation_content]
    ∧ (create_rfp_prompt requirement category previous_responses).length = 3
    ∧ StrContains requirement (system_content requirement category)
    ∧ (∀ c, category = some c → c ≠ "" →
        StrContains c (system_content requirement category))
    ∧ (category = none ∨ category = some "" →
        StrContains "Financial Technology" (system_content requirement category))
    ∧ (previous_responses = [] →
        StrContains no_responses_notice (user_content requirement previous_responses))
    ∧ (∀ r1 r2 r3 rest, previous_responses = r1 :: r2 :: r3 :: rest →
        user_content requirement previous_responses =
          userPart1 ++
            (exampleBlock 1 r1 ++ (exampleBlock 2 r2 ++ (exampleBlock 3 r3 ++ ""))) ++
            userPart2 ++ requirement ++ "\n")
    ∧ (∀ r, r ∈ previous_responses.take 3 →
        ∃ pre c1 c2, format2 (effScore r) = pre ++ "." ++ (⟨[c1, c2]⟩ : String)
          ∧ c1.isDigit = true ∧ c2.isDigit = true) := by
  refine ⟨rfl, rfl, ?_, ?_, ?_, ?_, ?_, ?_⟩
  · unfold system_content
    apply strContains_append_right
    exact strContains_append_left _ (strContains_refl _)
  · intro c hc hne
    unfold system_content
    rw [hc]
    rw [show categoryOrDefault (some c) = c from by simp [categoryOrDefault, hne]]
    apply strContains_append_right
    apply strContains_append_right
    apply strContains_append_right
    exact strContains_append_left _ (strContains_refl _)
  · intro hcat
    unfold system_content
    have e : categoryOrDefault category = "Financial Technology" := by
      rcases hcat with h | h <;> rw [h] <;> rfl
    rw [e]
    apply strContains_append_right
    apply strContains_append_right
    apply strContains_append_right
    exact strContains_append_left _ (strContains_refl _)
  · intro h
    subst h
    unfold user_content
    apply strContains_append_right
    apply strContains_append_right
    apply strContains_append_right
    apply strContains_append_left
    exact strContains_refl _
  · intro r1 r2 r3 rest h
    subst h
    unfold user_content
    simp only [pyOrStr]
    rw [if_neg (formatted_examples_cons_ne_empty r1 (r2 :: r3 :: rest))]
    rw [show formatted_examples (r1 :: r2 :: r3 :: rest) =
      exampleBlock 1 r1 ++ (exampleBlock 2 r2 ++ (exampleBlock 3 r3 ++ "")) from rfl]
  · intro r _
    exact format2_two_decimals (effScore r)

/-- C4 witness: concrete requirement, category and three matches. -/
theorem create_rfp_prompt_shape_witness :
    (some "Reporting" : Option String) = some "Reporting"
    ∧ StrContains "Describe your reporting dashboard capabilities"
        (system_content "Describe your reporting dashboard capabilities" (some "Reporting"))
    ∧ StrContains "Reporting"
        (system_content "Describe your reporting dashboard capabilities" (some "Reporting"))
    ∧ StrContains no_responses_notice (user_content "R2" [])
    ∧ user_content "R3"
        [⟨some "q1", some "a1", .num ⟨91, 2⟩⟩, ⟨some "q2", some "a2", .num ⟨77, 2⟩⟩,
         ⟨some "q3", some "a3", .num ⟨5, 1⟩⟩, ⟨some "q4", some "a4", .missing⟩] =
        userPart1 ++
          (exampleBlock 1 ⟨some "q1", some "a1", .num ⟨91, 2⟩⟩ ++
            (exampleBlock 2 ⟨some "q2", some "a2", .num ⟨77, 2⟩⟩ ++
              (exampleBlock 3 ⟨some "q3", some "a3", .num ⟨5, 1⟩⟩ ++ ""))) ++
          userPart2 ++ "R3" ++ "\n" :=
  ⟨rfl,
   (create_rfp_prompt_shape "Describe your reporting dashboard capabilities"
      (some "Reporting") []).2.2.1,
   (create_rfp_prompt_shape "Describe your reporting dashboard capabilities"
      (some "Reporting") []).2.2.2.1 "Reporting" rfl (by decide),
   (create_rfp_prompt_shape "R2" none []).2.2.2.2.2.1 rfl,
   (create_rfp_prompt_shape "R3" none
      [⟨some "q1", some "a1", .num ⟨91, 2⟩⟩, ⟨some "q2", some "a2", .num ⟨77, 2⟩⟩,
       ⟨some "q3", some "a3", .num ⟨5, 1⟩⟩,
       ⟨some "q4", some "a4", .missing⟩]).2.2.2.2.2.2.1
     ⟨some "q1", some "a1", .num ⟨91, 2⟩⟩ ⟨some "q2", some "a2", .num ⟨77, 2⟩⟩
     ⟨some "q3", some "a3", .num ⟨5, 1⟩⟩ [⟨some "q4", some "a4", .missing⟩] rfl⟩

/-! ## C10: malformed similarity scores -/

/-- A successful MOA run implies at least one truthy fan-out result. -/
theorem moa_cond_of_ok {req : String} {fo : FanOutCalls}
    {sc : Except String HandlerResult} {r : MoaRecord}
    (hr : get_llm_responses_moa req fo sc = .ok r) :
    (truthyOpt (record_response "openai" fo.openai)
      || truthyOpt (record_response "deepseek" fo.deepseek)
      || truthyOpt (record_response "anthropic" fo.anthropic)) = true := by
  cases hb : (truthyOpt (record_response "openai" fo.openai)
      || truthyOpt (record_response "deepseek" fo.deepseek)
      || truthyOpt (record_response "anthropic" fo.anthropic)) with
  | true => rfl
  | false =>
    simp [get_llm_responses_moa, hb] at hr

/-- The record of a successful MOA run, component by component. -/
theorem moa_ok_record {req : String} {fo : FanOutCalls}
    {sc : Except String HandlerResult} {r : MoaRecord}
    (hr : get_llm_responses_moa req fo sc = .ok r) :
    r = { openai_response := record_response "openai" fo.openai
          deepseek_response := record_response "deepseek" fo.deepseek
          anthropic_response := record_response "anthropic" fo.anthropic
          final_response :=
            match prompt_gpt "openai" sc with
            | .ok s => some s
            | .error _ =>
              pyOrOpt (record_response "openai" fo.openai)
                (pyOrOpt (record_response "deepseek" fo.deepseek)
                  (record_response "anthropic" fo.anthropic))
          synthesis_source :=
            joinSep "\n\n" (labeled_responses (record_response "openai" fo.openai)
              (record_response "deepseek" fo.deepseek)
              (record_response "anthropic" fo.anthropic))
          synthesis_prompt :=
            create_synthesized_response_prompt req
              (joinSep "\n\n" (labeled_responses (record_response "openai" fo.openai)
                (record_response "deepseek" fo.deepseek)
                (record_response "anthropic" fo.anthropic))) } := by
  have hb := moa_cond_of_ok hr
  simp only [get_llm_responses_moa, hb, if_true] at hr
  injection hr with hr
  exact hr.symm

/-- The priority fallback of three never-`some ""` values with at least
one truthy value is a nonempty result. -/
theorem firstAvailable_truthy {a b c : Option String}
    (ha : a ≠ some "") (hb : b ≠ some "") (hc : c ≠ some "")
    (h : (truthyOpt a || truthyOpt b || truthyOpt c) = true) :
    ∃ t, firstAvailable a (firstAvailable b c) = some t ∧ t ≠ "" := by
  cases a with
  | some s =>
    exact ⟨s, rfl, fun he => ha (by rw [he])⟩
  | none =>
    cases b with
    | some s =>
      exact ⟨s, rfl, fun he => hb (by rw [he])⟩
    | none =>
      cases c with
      | some s =>
        exact ⟨s, rfl, fun he => hc (by rw [he])⟩
      | none => simp [truthyOpt] at h

/-! ## C1 (amended): fan-out isolation, total failure, synthesis input -/

/-- C1 (amended).  In MOA mode each fan-out call is isolated: its
exception is caught and recorded as a missing (`None`) result without
aborting the others — each provider's recorded column depends only on its
own call.  If no recorded response is truthy the branch raises
`ValueError` and no persistence write occurs (`.error`).  Otherwise a row
is persisted whose synthesis source joins exactly the successful
responses, each under its fixed heading (`OpenAI Response:`,
`Deepseek Response:`, `Claude Response:`) — for DeepSeek and Anthropic
these headings differ from the registry display names, which refutes the
claim's "labeled with its provider display name". -/
theorem moa_fanout_isolation (requirement : String) (fanout : FanOutCalls)
    (synthesis_call : Except String HandlerResult) :
    ((truthyOpt (record_response "openai" fanout.openai)
      || truthyOpt (record_response "deepseek" fanout.deepseek)
      || truthyOpt (record_response "anthropic" fanout.anthropic)) = false →
        get_llm_responses_moa requirement fanout synthesis_call =
          .error "Failed to generate responses from any model")
    ∧ ((truthyOpt (record_response "openai" fanout.openai)
      || truthyOpt (record_response "deepseek" fanout.deepseek)
      || truthyOpt (record_response "anthropic" fanout.anthropic)) = true →
        ∃ r, get_llm_responses_moa requirement fanout synthesis_call = .ok r)
    ∧ (∀ r, get_llm_responses_moa requirement fanout synthesis_call = .ok r →
        r.openai_response = record_response "openai" fanout.openai
        ∧ r.deepseek_response = record_response "deepseek" fanout.deepseek
        ∧ r.anthropic_response = record_response "anthropic" fanout.anthropic
        ∧ r.openai_response ≠ some "" ∧ r.deepseek_response ≠ some ""
        ∧ r.anthropic_response ≠ some ""
        ∧ r.synthesis_source =
            joinSep "\n\n" (labeled_responses r.openai_response r.deepseek_response
              r.anthropic_response)
        ∧ r.synthesis_prompt =
            create_synthesized_response_prompt requirement r.synthesis_source)
    ∧ (∀ e, fanout.anthropic = .error e →
        record_response "anthropic" fanout.anthropic = none) := by
  refine ⟨?_, ?_, ?_, ?_⟩
  · intro h
    simp [get_llm_responses_moa, h]
  · intro h
    simp only [get_llm_responses_moa, h, if_true]
    exact ⟨_, rfl⟩
  · intro r hr
    have e := moa_ok_record hr
    subst e
    refine ⟨rfl, rfl, rfl, record_response_ne_some_empty _ _,
      record_response_ne_some_empty _ _, record_response_ne_some_empty _ _, rfl, rfl⟩
  · intro e he
    rw [he]
    rfl

/-- C1 counterexample: with only the Anthropic call succeeding, the
synthesis source labels it `Claude Response:` — the Anthropic display
name (`Anthropic`) does not occur in the synthesis source, refuting the
display-name labeling as stated. -/
theorem moa_label_not_display_name :
    (get_llm_responses_moa "R" ⟨.error "x", .error "y", .ok (.str "X")⟩
        (.error "z")).map MoaRecord.synthesis_source
      = .ok "Claude Response:\nX"
    ∧ ¬ StrContains "Anthropic" "Claude Response:\nX"
    ∧ anthropicConfig.display_name = "Anthropic" :=
  ⟨rfl, by decide, rfl⟩

/-- C1 witness: all three calls failing yields the fatal error and no
persisted row; a partial failure is recorded as missing. -/
theorem moa_fanout_isolation_witness :
    (truthyOpt (record_response "openai" (.error "a"))
      || truthyOpt (record_response "deepseek" (.error "b"))
      || truthyOpt (record_response "anthropic" (.error "c"))) = false
    ∧ get_llm_responses_moa "R2" ⟨.error "a", .error "b", .error "c"⟩ (.error "d")
        = .error "Failed to generate responses from any model"
    ∧ record_response "anthropic" (.error "c") = none :=
  ⟨by decide,
   (moa_fanout_isolation "R2" ⟨.error "a", .error "b", .error "c"⟩ (.error "d")).1
     (by decide),
   (moa_fanout_isolation "R2" ⟨.error "a", .error "b", .error "c"⟩ (.error "d")).2.2.2
     "c" rfl⟩

/-! ## C2: synthesis outcome and priority fallback -/

/-- C2.  In a successful MOA run: when the synthesis invocation succeeds
its text is the final response; when it raises, the final response is the
first available individual result in the fixed priority order OpenAI,
DeepSeek, Anthropic; at least one fan-out call succeeded, and the
fallback then always yields a non-empty result. -/
theorem moa_final_response (req : String) (fo : FanOutCalls)
    (sc : Except String HandlerResult) (r : MoaRecord)
    (hr : get_llm_responses_moa req fo sc = .ok r) :
    (∀ s, prompt_gpt "openai" sc = .ok s → r.final_response = some s)
    ∧ ((record_response "openai" fo.openai).isSome
        ∨ (record_response "deepseek" fo.deepseek).isSome
        ∨ (record_response "anthropic" fo.anthropic).isSome)
    ∧ (∀ e, prompt_gpt "openai" sc = .error e →
        r.final_response =
          firstAvailable (record_response "openai" fo.openai)
            (firstAvailable (record_response "deepseek" fo.deepseek)
              (record_response "anthropic" fo.anthropic))
        ∧ ∃ t, r.final_response = some t ∧ t ≠ "") := by
  have hb := moa_cond_of_ok hr
  have e := moa_ok_record hr
  subst e
  refine ⟨?_, ?_, ?_⟩
  · intro s hs
    simp [hs]
  · have : ∀ x : Option String, truthyOpt x = true → x.isSome = true := by
      intro x hx
      cases x with
      | none => exact absurd hx (by simp [truthyOpt])
      | some s => rfl
    rcases Bool.or_eq_true_iff.mp hb with h | h
    · rcases Bool.or_eq_true_iff.mp h with h2 | h2
      · exact Or.inl (this _ h2)
      · exact Or.inr (Or.inl (this _ h2))
    · exact Or.inr (Or.inr (this _ h))
  · intro err herr
    have efall :
        pyOrOpt (record_response "openai" fo.openai)
          (pyOrOpt (record_response "deepseek" fo.deepseek)
            (record_response "anthropic" fo.anthropic)) =
        firstAvailable (record_response "openai" fo.openai)
          (firstAvailable (record_response "deepseek" fo.deepseek)
            (record_response "anthropic" fo.anthropic)) := by
      rw [pyOrOpt_eq_firstAvailable _ (record_response_ne_some_empty _ _),
        pyOrOpt_eq_firstAvailable _ (record_response_ne_some_empty _ _)]
    constructor
    · simp [herr, efall]
    · obtain ⟨t, ht, htne⟩ := firstAvailable_truthy
        (record_response_ne_some_empty "openai" fo.openai)
        (record_response_ne_some_empty "deepseek" fo.deepseek)
        (record_response_ne_some_empty "anthropic" fo.anthropic) hb
      refine ⟨t, ?_, htne⟩
      simp [herr, efall, ht]

/-- C2 witness: only the DeepSeek call succeeds and synthesis fails; the
fallback is the DeepSeek text. -/
theorem moa_final_response_witness :
    get_llm_responses_moa "R" ⟨.error "x", .ok (.str "B"), .error "y"⟩ (.error "z")
      = .ok { openai_response := none
              deepseek_response := some "B"
              anthropic_response := none
              final_response := some "B"
              synthesis_source := "Deepseek Response:\nB"
              synthesis_prompt :=
                create_synthesized_response_prompt "R" "Deepseek Response:\nB" }
    ∧ (some "B" : Option String) =
        firstAvailable none (firstAvailable (some "B") none)
    ∧ ("B" : String) ≠ "" := by
  refine ⟨rfl, ?_, by decide⟩
  have h := (moa_final_response "R" ⟨.error "x", .ok (.str "B"), .error "y"⟩
    (.error "z") _ rfl).2.2 "z" rfl
  exact h.1
